import Mathlib

/-
Shallow embedding of the authentication/session and chat-turn request flow of
the classroom agent demos, together with proofs of the specified testable
properties.

Embedded services:
* `Class05`      — the class-05 FastAPI chat service
  (classes/class-05-deployment-interfaces/demos/fastapi-agent-service/main.py)
* `Class06`      — the class-06 guardrails e-commerce chat service
  (classes/class-06-guardrails-ethics/demos/ai-agent-with-guardrails/main.py)
* `Class07`      — the class-07 travel-planner backend
  (classes/class-07-mcp-protocol/demos/ai-agent-application/backend/main.py
   together with guardrails.py and agent.py of the same directory)
* `ResourcesAuth` — the beginner authentication resource
  (resources/fastapi/authentication.py)

External collaborators (the LLM agent runner, the guardrails validation
engine, the Langfuse trace monitor, the uuid generator) are modelled as
explicit parameters of the handlers: an `Option String` agent reply where
`none` stands for "the SDK raised or produced no content", a guardrail
outcome parameter, a `monitored` flag, and a `uuid` string.  Everything
else is translated statement by statement from the Python source.
-/

set_option maxRecDepth 8000

namespace AgentDemos

/-- Python's ASCII whitespace characters, as stripped by `str.strip()`. -/
def isPySpace (c : Char) : Bool :=
  c = ' ' || c = '\t' || c = '\n' || c = '\r' || c = '\x0b' || c = '\x0c'

/-- Python `str.strip()`: drop leading and trailing whitespace. -/
def pyStrip (s : String) : String :=
  ⟨((s.toList.dropWhile isPySpace).reverse.dropWhile isPySpace).reverse⟩

/-- Python `str.lower()` (ASCII case mapping, which is all the demos use). -/
def pyLower (s : String) : String :=
  ⟨s.toList.map Char.toLower⟩

/-- Substring test over character lists: does `pat` occur inside `text`?
Models Python's `pat in text`. -/
def subIn (pat : List Char) : List Char → Bool
  | [] => pat.isEmpty
  | c :: rest => pat.isPrefixOf (c :: rest) || subIn pat rest

/-- Python `pat in text` on strings. -/
def strIn (pat text : String) : Bool :=
  subIn pat.toList text.toList

/-- Python truthiness of an optional string: `None` and `""` are falsy. -/
def optTruthy : Option String → Bool
  | none => false
  | some s => !(s == "")

/-- Python `x or dflt` for an optional string `x`: the default replaces both
`None` and the empty string. -/
def pyOr (x : Option String) (dflt : String) : String :=
  match x with
  | some s => if s = "" then dflt else s
  | none => dflt

/-- An HTTP error response (`fastapi.HTTPException`): status code and detail. -/
structure HTTPError where
  status : Nat
  detail : String
deriving DecidableEq, Repr

/-- The in-process token table `app.state.active_tokens : dict[str, str]`,
modelled as an association list from token to username. -/
abbrev Store := List (String × String)

/-- Python `dict.get`: the value stored under `k`, if any. -/
def Store.get (s : Store) (k : String) : Option String :=
  match s.find? (fun p => p.1 == k) with
  | some p => some p.2
  | none => none

/-- Python `dict.__setitem__`: insert `k ↦ v`, overwriting any previous entry. -/
def Store.put (s : Store) (k v : String) : Store :=
  (k, v) :: s.filter (fun p => !(p.1 == k))

namespace Class05

/-- Model of `LoginRequest` of the class-05 service. -/
structure Credentials where
  username : String
  password : String
deriving DecidableEq, Repr

/-- Model of `LoginResponse` of the class-05 service. -/
structure LoginResponse where
  message : String
  token : String
deriving DecidableEq, Repr

/-- Model of `ChatRequest` of the class-05 service: `session_id` is optional. -/
structure ChatRequest where
  message : String
  session_id : Option String := none
deriving DecidableEq, Repr

/-- Model of `ChatResponse` of the class-05 service: `session_id` is a required string. -/
structure ChatResponse where
  reply : String
  source : String
  monitored : Bool
  session_id : String
deriving DecidableEq, Repr

/-- Model of `OPENAI_MODEL = os.getenv("OPENAI_MODEL", "gpt-4o-mini")`, taken at
its default value (no claim depends on the model name). -/
def OPENAI_MODEL : String := "gpt-4o-mini"

/-- Error `HTTPException(500, "Server credentials are not configured")`. -/
def serverMisconfigured : HTTPError :=
  { status := 500, detail := "Server credentials are not configured" }

/-- Error `HTTPException(401, "Invalid username or password")`. -/
def invalidCredentials : HTTPError :=
  { status := 401, detail := "Invalid username or password" }

/-- Error `HTTPException(401, "Missing or invalid authentication token")`. -/
def invalidToken : HTTPError :=
  { status := 401, detail := "Missing or invalid authentication token" }

/-- Error `HTTPException(400, "message cannot be empty")`. -/
def emptyMessage : HTTPError :=
  { status := 400, detail := "message cannot be empty" }

/-- The generic 500 produced when the handler itself raises (here: pydantic
rejecting `ChatResponse(session_id=None)` because the field is a `str`). -/
def responseValidationError : HTTPError :=
  { status := 500, detail := "Internal Server Error" }

/-- Model of `create_token`: the string token-<uuid4>-<username>, with the
uuid made an explicit argument. -/
def create_token (uuid username : String) : String :=
  "token-" ++ uuid ++ "-" ++ username

/-- The `/login` handler.  `cfgU`/`cfgP` are `AGENT_API_USERNAME` /
`AGENT_API_PASSWORD` (`os.getenv`, hence optional).  Returns the response and
the token store after the request (`save_token` writes it on success). -/
def login (cfgU cfgP : Option String) (store : Store) (creds : Credentials)
    (uuid : String) : Except HTTPError LoginResponse × Store :=
  match cfgU, cfgP with
  | some u, some p =>
    if u = "" ∨ p = "" then (.error serverMisconfigured, store)
    else if creds.username ≠ u ∨ creds.password ≠ p then
      (.error invalidCredentials, store)
    else
      let token := create_token uuid creds.username
      (.ok { message := "Welcome back, " ++ creds.username ++ "!", token := token },
        Store.put store token creds.username)
  | _, _ => (.error serverMisconfigured, store)

/-- Model of `verify_token`: look the header token up in `app.state.active_tokens`;
`if not username: raise 401` (so an empty stored username is also rejected). -/
def verify_token (store : Store) (token : String) : Except HTTPError String :=
  match Store.get store token with
  | none => .error invalidToken
  | some username => if username = "" then .error invalidToken else .ok username

/-- The canned texts of `build_offline_reply`. -/
def streamlitReply : String :=
  "Streamlit reruns your script after every click. Keep anything you need in st.session_state."

def fastapiReply : String :=
  "FastAPI ships with automatic docs at /docs. Try them once the server is running!"

def langfuseReply : String :=
  "Langfuse links inputs and outputs. Set the keys to see traces pop up in the dashboard."

def deployReply : String :=
  "Deploy the API first, then point your Streamlit app to the live URL to share it."

def offlineReply : String :=
  "I am in offline mode. Ask about Streamlit, FastAPI, or Langfuse to see directed tips."

/-- Model of `build_offline_reply`: keyword-matched canned reply on the lowercased
message. -/
def build_offline_reply (message : String) : String :=
  let text := pyLower message
  if strIn "streamlit" text then streamlitReply
  else if strIn "fastapi" text then fastapiReply
  else if strIn "langfuse" text || strIn "monitor" text then langfuseReply
  else if strIn "deploy" text then deployReply
  else offlineReply

/-- Model of `invoke_agent` (minus the Langfuse span bookkeeping): `agentReply` is the
outcome of `run_agent` (`none` when the runner is missing, raised, or produced
no content).  `if agent_reply:` — an empty string also falls back. -/
def invoke_agent (agentReply : Option String) (message : String) : String × String :=
  if optTruthy agentReply then
    (agentReply.getD "", "langgraph:" ++ OPENAI_MODEL)
  else
    (build_offline_reply message, "rule-based")

/-- External calls a chat turn can make, for stating "performs no external
call". -/
inductive ExtCall where
  | langfuseAuthCheck
  | agentInvoke
deriving DecidableEq, Repr

/-- Result of a chat turn together with the external calls it made. -/
structure ChatOutcome where
  result : Except HTTPError ChatResponse
  calls : List ExtCall
deriving Repr

/-- Body of the `/chat` handler (runs after the `verify_token` dependency).
`monitored` is the outcome of `langfuse_client.auth_check()`. The final
`ChatResponse(...)` construction fails (pydantic) when `payload.session_id`
is `None`, because the response field is a required `str`. -/
def chatBody (payload : ChatRequest) (monitored : Bool)
    (agentReply : Option String) : ChatOutcome :=
  let message := pyStrip payload.message
  if message = "" then
    { result := .error emptyMessage, calls := [] }
  else
    let rs := invoke_agent agentReply message
    match payload.session_id with
    | some sid =>
      { result := .ok { reply := rs.1, source := rs.2, monitored := monitored,
                        session_id := sid },
        calls := [.langfuseAuthCheck, .agentInvoke] }
    | none =>
      { result := .error responseValidationError,
        calls := [.langfuseAuthCheck, .agentInvoke] }

/-- The `/chat` endpoint: FastAPI resolves the `Depends(verify_token)`
dependency before the handler body runs. -/
def chat (store : Store) (token : String) (payload : ChatRequest)
    (monitored : Bool) (agentReply : Option String) : ChatOutcome :=
  match verify_token store token with
  | .error e => { result := .error e, calls := [] }
  | .ok _ => chatBody payload monitored agentReply

/-- One successful `/login` request, as a transition on the token store (the
only operation of the service that writes the store). -/
inductive LoginStep (cfgU cfgP : Option String) : Store → Store → Prop where
  | step (store : Store) (creds : Credentials) (uuid : String)
      (resp : LoginResponse) (store' : Store)
      (h : login cfgU cfgP store creds uuid = (.ok resp, store')) :
      LoginStep cfgU cfgP store store'

/-- Token stores reachable from process start (empty table) by login
requests. -/
def Reachable (cfgU cfgP : Option String) (store : Store) : Prop :=
  Relation.ReflTransGen (LoginStep cfgU cfgP) [] store

end Class05

namespace Class07

/-- Model of `os.getenv(var, default)`: the environment value if the variable is set
(possibly to the empty string), otherwise the default. -/
def envOr (e : Option String) (d : String) : String :=
  match e with
  | some s => s
  | none => d

/-- Model of `PlanRequest` of the class-07 backend (`start_date` kept as its ISO text,
which is how `build_trip_prompt` renders it). -/
structure PlanRequest where
  destination : String
  num_days : Nat
  budget : Nat
  preferences : String := "General sightseeing"
  session_id : Option String := none
  start_date : String
deriving DecidableEq, Repr

/-- Model of `PlanResponse` of the class-07 backend. -/
structure PlanResponse where
  itinerary : String
  session_id : String
  monitored : Bool
  source : String
  guardrails_note : Option String := none
deriving DecidableEq, Repr

/-- The class-07 `/login` handler: identical to class-05's except that there
is no configuration check — `API_USERNAME`/`API_PASSWORD` always exist thanks
to the `os.getenv` defaults (`"student"` / `"travel-demo"`). -/
def login (cfgU cfgP : String) (store : Store) (creds : Class05.Credentials)
    (uuid : String) : Except HTTPError Class05.LoginResponse × Store :=
  if creds.username ≠ cfgU ∨ creds.password ≠ cfgP then
    (.error Class05.invalidCredentials, store)
  else
    let token := Class05.create_token uuid creds.username
    (.ok { message := "Welcome back, " ++ creds.username ++ "!", token := token },
      Store.put store token creds.username)

/-- Model of `PromptStatus` (the literal type ok/blocked/error) from guardrails.py. -/
inductive GStatus where
  | ok
  | blocked
  | error
deriving DecidableEq, Repr

/-- Model of `check_user_prompt` from guardrails.py.  The Guardrails-AI validation
engine is external; `guardExc = some e` means `guard.validate` raised with
message `e`, `none` means it passed. -/
def check_user_prompt (guardExc : Option String) (prompt : String) :
    GStatus × Option String :=
  if pyStrip prompt = "" then
    (.blocked, some "Please share a destination or travel idea first.")
  else
    match guardExc with
    | none => (.ok, none)
    | some exc => (.blocked, some ("Prompt rejected by guardrails: " ++ exc))

/-- Model of `check_agent_answer` from guardrails.py (same external-engine convention). -/
def check_agent_answer (guardExc : Option String) : GStatus × Option String :=
  match guardExc with
  | none => (.ok, none)
  | some exc => (.blocked, some ("Response withheld by guardrails: " ++ exc))

/-- The fixed tail of the trip prompt template (after the payload fields). -/
def tripPromptTail : String :=
  "Do not ask questions—generate a complete itinerary now using all available MCP tools.\n" ++
  "Critical requirements:\n" ++
  "1. Use Google Maps MCP to calculate distances and travel times between EVERY location.\n" ++
  "2. Include specific addresses for each activity, restaurant, and attraction.\n" ++
  "3. Provide start/end times with buffer periods for travel and rest.\n" ++
  "4. Estimate transportation costs between locations and note ticket prices/opening hours.\n" ++
  "5. Suggest three Airbnb listings with prices, addresses, amenities, and distance from city center.\n" ++
  "6. Summarize weather insights, packing tips, cultural norms, safety advice, and communication options.\n" ++
  "7. Structure the answer with the sections below and keep the tone energetic but professional.\n\n" ++
  "Required output format:\n" ++
  "1. Trip Overview – summary, detailed weather forecast, and cost breakdown.\n" ++
  "2. Accommodation – three Airbnb options (name, price, address, distance to center, key amenities).\n" ++
  "3. Transportation Overview – recommended modes, passes, and cost estimates.\n" ++
  "4. Day-by-Day Itinerary – for each day include timed schedule, addresses, distances, travel times, " ++
  "opening hours, ticket prices, and buffer guidance.\n" ++
  "5. Dining Plan – restaurants with cuisine, price range, address, and proximity to lodging.\n" ++
  "6. Practical Information – currency tips, safety advice, emergency contacts, connectivity options, " ++
  "health notes, and shopping ideas.\n" ++
  "7. Optional Add-ons – extra experiences or day trips if time remains.\n" ++
  "Use MCP tool outputs directly and cite when you use Airbnb or Google Maps data."

/-- Model of `build_trip_prompt` from agent.py. -/
def build_trip_prompt (payload : PlanRequest) : String :=
  "IMMEDIATELY create an extremely detailed and comprehensive travel itinerary:\n\n" ++
  "- Destination: " ++ payload.destination ++ "\n" ++
  "- Duration: " ++ toString payload.num_days ++ " days\n" ++
  "- Budget: $" ++ toString payload.budget ++ " USD total\n" ++
  "- Start date: " ++ payload.start_date ++ "\n" ++
  "- Preferences: " ++ payload.preferences ++ "\n\n" ++
  tripPromptTail

/-- Model of `build_fallback_reply` from main.py. -/
def build_fallback_reply (payload : PlanRequest) : String :=
  "Here\x27s a quick starter itinerary for " ++ payload.destination ++ ".\n" ++
  "- Morning: Explore the historic downtown and visit a popular museum.\n" ++
  "- Afternoon: Walk through a local park and sample regional cuisine.\n" ++
  "- Evening: Find a rooftop view for sunset.\n" ++
  "Upgrade your API keys to unlock richer MCP-powered suggestions."

/-- Error `HTTPException(400, guardrails_message or "Prompt blocked by guardrails.")`. -/
def promptBlockedError (msg : Option String) : HTTPError :=
  { status := 400,
    detail := match msg with
      | some m => if m = "" then "Prompt blocked by guardrails." else m
      | none => "Prompt blocked by guardrails." }

/-- The `/plan` handler.  External collaborators as parameters:
`promptGuardExc`/`answerGuardExc` feed the two guardrail checks,
`agentItinerary` is `await agent.plan(...)` (`none` = unavailable/raised/empty),
`monitored` is the Langfuse `auth_check`, `uuid` the generated session id. -/
def plan_trip (store : Store) (token : String) (payload : PlanRequest)
    (uuid : String) (promptGuardExc : Option String) (monitored : Bool)
    (agentItinerary : Option String) (answerGuardExc : Option String) :
    Except HTTPError PlanResponse :=
  match Class05.verify_token store token with
  | .error e => .error e
  | .ok _ =>
    let session_id := pyOr payload.session_id uuid
    let user_prompt := build_trip_prompt payload
    let pc := check_user_prompt promptGuardExc user_prompt
    if pc.1 ≠ .ok then
      .error (promptBlockedError pc.2)
    else
      if optTruthy agentItinerary then
        let itinerary := agentItinerary.getD ""
        let ac := check_agent_answer answerGuardExc
        if ac.1 ≠ .ok then
          .ok { itinerary := build_fallback_reply payload, session_id := session_id,
                monitored := monitored, source := "fallback", guardrails_note := ac.2 }
        else
          .ok { itinerary := itinerary, session_id := session_id,
                monitored := monitored,
                source := "langgraph:" ++ Class05.OPENAI_MODEL,
                guardrails_note := pc.2 }
      else
        .ok { itinerary := build_fallback_reply payload, session_id := session_id,
              monitored := monitored, source := "fallback", guardrails_note := pc.2 }

end Class07

namespace Class06

/-- Model of `ChatMessage` of the class-06 service. -/
structure ChatMessage where
  role : String
  content : String
deriving DecidableEq, Repr

/-- Model of `ChatRequest` of the class-06 service. -/
structure ChatRequest where
  session_id : Option String := none
  messages : List ChatMessage := []
  message : Option String := none
deriving DecidableEq, Repr

/-- Model of `ChatResponse` of the class-06 service (no `source` field). -/
structure ChatResponse where
  reply : String
  session_id : String
  guardrails_applied : Option String := none
deriving DecidableEq, Repr

/-- Value bound to `guardrail_response`: either a plain string (the
"GUARDRAILS ERROR" marker or the initial "NONE") or the opaque
`ValidationOutcome` object returned by `guard.validate`, carrying its
`passed` attribute and its `str()` rendering. -/
inductive GVal where
  | str (s : String)
  | outcome (passed : Bool) (text : String)
deriving DecidableEq, Repr

/-- Outcome of a Python call: a value, or an uncaught exception. -/
inductive PyOutcome (α : Type) where
  | ok (val : α)
  | exc (msg : String)
deriving DecidableEq, Repr

def apologyPrompt : String := "I am sorry but I cannot engage in this type of behavior."

def apologyReply : String := "I am sorry but I am experiencing some difficulties."

def apologyRelevance : String := "Can you provide more details on the product you aim to buy?"

/-- Model of `run_agent` of the class-06 service.  External collaborators as
parameters: `agentAvailable` = `app.state.agent_executor is not None`,
`promptGuardFailed` / `replyGuardFailed` = `apply_prompt_guardails` returned
its "GUARDRAILS ERROR" marker on the user input / the AI reply,
`relevanceFailed` likewise for `apply_relevance_guardails`, whose passing
outcome object is `relevanceOutcome`, and `invokeResult` = the last message
content of `agent.invoke` (`none` when it raised or returned no messages).
The caller guarantees `msgs` nonempty (`messages[-1]` is read before the
emptiness check on the converted list). -/
def run_agent (agentAvailable : Bool) (promptGuardFailed : Bool)
    (invokeResult : Option String) (replyGuardFailed relevanceFailed : Bool)
    (relevanceOutcome : GVal) (msgs : List ChatMessage) :
    Option (Option String × GVal) :=
  if agentAvailable = false then none
  else if promptGuardFailed then some (some apologyPrompt, .str "GUARDRAILS ERROR")
  else if msgs.isEmpty then none
  else
    match invokeResult with
    | none => none
    | some ai =>
      if replyGuardFailed then some (some apologyReply, .str "GUARDRAILS ERROR")
      else if relevanceFailed then some (some apologyRelevance, .str "GUARDRAILS ERROR")
      else some (some ai, relevanceOutcome)

/-- The exception raised by `agent_reply, guardrail_response = run_agent(...)`
when `run_agent` returns `None` (four of its paths do). -/
def typeErrorMsg : String := "TypeError: cannot unpack non-iterable NoneType object"

/-- Model of `compute_reply`: unpacks the `run_agent` return value — which raises a
`TypeError` whenever `run_agent` returned `None` — then applies the
`if agent_reply:` truthiness filter. -/
def compute_reply (agentAvailable promptGuardFailed : Bool)
    (invokeResult : Option String) (replyGuardFailed relevanceFailed : Bool)
    (relevanceOutcome : GVal) (msgs : List ChatMessage) :
    PyOutcome (Option (String × GVal)) :=
  match run_agent agentAvailable promptGuardFailed invokeResult replyGuardFailed
      relevanceFailed relevanceOutcome msgs with
  | none => .exc typeErrorMsg
  | some rg =>
    .ok (match rg.1 with
      | some r => if r = "" then none else some (r, rg.2)
      | none => none)

/-- Model of `_last_user_message`: the content of the latest message whose lowercased
role is user/human and whose stripped content is nonempty. -/
def lastUserMessage (msgs : List ChatMessage) : Option String :=
  match msgs.reverse.find? (fun m =>
      (pyLower m.role == "user" || pyLower m.role == "human")
        && !(pyStrip m.content == "")) with
  | some m => some m.content
  | none => none

def emptyMessagesError : HTTPError :=
  { status := 400, detail := "messages cannot be empty" }

def noUserMessageError : HTTPError :=
  { status := 400, detail := "at least one user message is required" }

def agentUnavailableError : HTTPError :=
  { status := 503, detail := "Agent unavailable. Set OPENAI_API_KEY to enable replies." }

/-- The conversation list the `/chat` handler assembles: the typed `messages`
(`_parse_chat_messages` is the identity on already-typed entries) plus the
legacy `message` field appended as a user turn when truthy, stripped-nonempty
and not a duplicate of the last entry. -/
def buildConversation (payload : ChatRequest) : List ChatMessage :=
  let conversation := payload.messages
  match payload.message with
  | none => conversation
  | some m =>
    if m = "" then conversation
    else
      let t := pyStrip m
      if t ≠ "" ∧ (conversation = [] ∨ (conversation.getLast?.map (·.content) ≠ some t)) then
        conversation ++ [{ role := "user", content := t }]
      else conversation

/-- The class-06 `/chat` endpoint (no authentication dependency).  Returns
`PyOutcome` so that the `TypeError` escaping `compute_reply` is visible. -/
def chat (payload : ChatRequest) (uuid : String)
    (agentAvailable promptGuardFailed : Bool) (invokeResult : Option String)
    (replyGuardFailed relevanceFailed : Bool) (relevanceOutcome : GVal) :
    PyOutcome (Except HTTPError ChatResponse) :=
  let session_id := pyOr payload.session_id uuid
  let conversation := buildConversation payload
  if conversation = [] then .ok (.error emptyMessagesError)
  else if lastUserMessage conversation = none then .ok (.error noUserMessageError)
  else
    match compute_reply agentAvailable promptGuardFailed invokeResult
        replyGuardFailed relevanceFailed relevanceOutcome conversation with
    | .exc m => .exc m
    | .ok none => .ok (.error agentUnavailableError)
    | .ok (some rg) =>
      let summary : Option String :=
        match rg.2 with
        | .str s => if s ≠ "" ∧ s ≠ "NONE" then some s else none
        | .outcome passed text => if passed then none else some text
      .ok (.ok { reply := rg.1, session_id := session_id, guardrails_applied := summary })

end Class06

namespace ResourcesAuth

/-- Profile payload returned by `/profile`. -/
structure Profile where
  username : String
  full_name : String
deriving DecidableEq, Repr

/-- Model of `FAKE_USER_DB`: username ↦ (password, full_name). -/
def FAKE_USER_DB : List (String × String × String) :=
  [("bod_doe", "aitut", "Bod Doe")]

/-- Model of the lookup `FAKE_USER_DB.get(username)`. -/
def dbGet (username : String) : Option (String × String) :=
  match FAKE_USER_DB.find? (fun p => p.1 == username) with
  | some p => some p.2
  | none => none

def malformedToken : HTTPError :=
  { status := 401, detail := "Missing or malformed token" }

def userNotFound : HTTPError :=
  { status := 401, detail := "User not found" }

/-- Model of `create_token`: the predictable token-<username>. -/
def create_token (username : String) : String :=
  "token-" ++ username

/-- The `/login` handler of the beginner auth resource. -/
def login (creds : Class05.Credentials) : Except HTTPError Class05.LoginResponse :=
  match dbGet creds.username with
  | none => .error Class05.invalidCredentials
  | some user =>
    if user.1 ≠ creds.password then .error Class05.invalidCredentials
    else
      .ok { message := "Welcome back, " ++ user.2 ++ "!",
            token := create_token creds.username }

/-- The `/profile` auth guard of the beginner auth resource: accepts any
header of the form `token-<u>` with `u` a key of the static user table —
there is no token store and no record of what login issued. -/
def read_profile (x_auth_token : String) : Except HTTPError Profile :=
  if !(("token-".toList).isPrefixOf x_auth_token.toList) then .error malformedToken
  else
    let username : String := ⟨x_auth_token.toList.drop 6⟩
    match dbGet username with
    | none => .error userNotFound
    | some user => .ok { username := username, full_name := user.2 }

end ResourcesAuth

/-- The fallback rule table as the spec words it: keyword groups checked in
order, each with its canned reply. -/
def fallbackRules : List (List String × String) :=
  [(["streamlit"], Class05.streamlitReply),
   (["fastapi"], Class05.fastapiReply),
   (["langfuse", "monitor"], Class05.langfuseReply),
   (["deploy"], Class05.deployReply)]

/-- The fallback reply as the spec describes it (refinement side of the
keyword-matching claim): the reply of the first rule whose keyword group has
a member occurring in the lowercased message, else the fixed offline-mode
reply. -/
def offlineReplySpec (message : String) : String :=
  let text := pyLower message
  match fallbackRules.find? (fun r => r.1.any (fun kw => strIn kw text)) with
  | some r => r.2
  | none => Class05.offlineReply

/- ### Helper lemmas -/

theorem store_get_put_self (s : Store) (k v : String) :
    Store.get (Store.put s k v) k = some v := by
  unfold Store.get Store.put
  rw [List.find?_cons_of_pos _ (by simp)]

theorem store_get_filter_ne (s : Store) (k t : String) (h : t ≠ k) :
    Store.get (s.filter (fun p => !(p.1 == k))) t = Store.get s t := by
  induction s with
  | nil => rfl
  | cons a s ih =>
    by_cases hak : a.1 = k
    · have h1 : (a :: s).filter (fun p => !(p.1 == k)) = s.filter (fun p => !(p.1 == k)) := by
        simp [List.filter_cons, hak]
      have h2 : (a.1 == t) = false := by simp [hak, Ne.symm h]
      rw [h1, ih]
      unfold Store.get
      rw [List.find?_cons_of_neg _ (by simp [h2])]
    · by_cases hat : a.1 = t
      · have h1 : (a :: s).filter (fun p => !(p.1 == k)) = a :: s.filter (fun p => !(p.1 == k)) := by
          simp [List.filter_cons, hak]
        rw [h1]
        unfold Store.get
        rw [List.find?_cons_of_pos _ (by simp [hat]),
          List.find?_cons_of_pos _ (by simp [hat])]
      · have h1 : (a :: s).filter (fun p => !(p.1 == k)) = a :: s.filter (fun p => !(p.1 == k)) := by
          simp [List.filter_cons, hak]
        rw [h1]
        unfold Store.get
        rw [List.find?_cons_of_neg _ (by simp [hat]),
          List.find?_cons_of_neg _ (by simp [hat])]
        exact ih

theorem store_get_put_ne (s : Store) (k v t : String) (h : t ≠ k) :
    Store.get (Store.put s k v) t = Store.get s t := by
  unfold Store.put
  have h2 : ((k, v).1 == t) = false := by simp [Ne.symm h]
  unfold Store.get
  rw [List.find?_cons_of_neg _ (by simp [h2])]
  exact store_get_filter_ne s k t h

theorem store_get_eq_some_mem {s : Store} {t u : String}
    (h : Store.get s t = some u) : ∃ e, e ∈ s ∧ e.2 = u := by
  unfold Store.get at h
  cases hf : s.find? (fun p => p.1 == t) with
  | none => rw [hf] at h; cases h
  | some e =>
    rw [hf] at h
    cases h
    exact ⟨e, List.mem_of_find?_eq_some hf, rfl⟩

theorem pyStrip_eq_empty_iff (s : String) :
    pyStrip s = "" ↔ ∀ c ∈ s.toList, isPySpace c = true := by
  unfold pyStrip
  constructor
  · intro h c hc
    have hdata : ((((s.toList.dropWhile isPySpace).reverse).dropWhile isPySpace)).reverse = [] :=
      congrArg String.data h
    have h1 : (((s.toList.dropWhile isPySpace).reverse).dropWhile isPySpace) = [] := by
      simpa using congrArg List.reverse hdata
    have h2 : ∀ x ∈ (s.toList.dropWhile isPySpace).reverse, isPySpace x = true :=
      List.dropWhile_eq_nil_iff.mp h1
    have h3 : ∀ x ∈ s.toList.dropWhile isPySpace, isPySpace x = true := by
      intro x hx
      exact h2 x (List.mem_reverse.mpr hx)
    have hsplit := List.takeWhile_append_dropWhile isPySpace s.toList
    rw [← hsplit] at hc
    rcases List.mem_append.mp hc with hc1 | hc2
    · exact List.mem_takeWhile_imp hc1
    · exact h3 c hc2
  · intro h
    have h1 : s.toList.dropWhile isPySpace = [] := List.dropWhile_eq_nil_iff.mpr h
    rw [h1]
    rfl

theorem pyStrip_ne_empty_of_mem {s : String} {c : Char}
    (hc : c ∈ s.toList) (hns : isPySpace c = false) : pyStrip s ≠ "" := by
  intro h
  have := (pyStrip_eq_empty_iff s).mp h c hc
  rw [hns] at this
  cases this

/-- The built trip prompt is never blank, so `check_user_prompt`'s emptiness
branch is unreachable from `/plan`. -/
theorem trip_prompt_strip_ne (p : Class07.PlanRequest) :
    pyStrip (Class07.build_trip_prompt p) ≠ "" := by
  apply pyStrip_ne_empty_of_mem (c := 'I')
  · unfold Class07.build_trip_prompt
    show 'I' ∈ String.data _
    simp only [String.data_append]
    repeat' apply List.mem_append_left
    decide
  · rfl

/-- Inversion of a successful class-05 login: the configuration is present
and non-empty, the credentials match it exactly, and the returned token was
written to the store under the credential's username. -/
theorem login_ok_elim {cfgU cfgP : Option String} {store : Store}
    {creds : Class05.Credentials} {uuid : String}
    {resp : Class05.LoginResponse} {store' : Store}
    (h : Class05.login cfgU cfgP store creds uuid = (.ok resp, store')) :
    ∃ u p, cfgU = some u ∧ cfgP = some p ∧ u ≠ "" ∧ p ≠ "" ∧
      creds.username = u ∧ creds.password = p ∧
      resp = { message := "Welcome back, " ++ u ++ "!",
               token := Class05.create_token uuid u } ∧
      store' = Store.put store (Class05.create_token uuid u) u := by
  cases cfgU with
  | none => simp [Class05.login] at h
  | some u =>
    cases cfgP with
    | none => simp [Class05.login] at h
    | some p =>
      unfold Class05.login at h
      dsimp only at h
      by_cases hup : u = "" ∨ p = ""
      · rw [if_pos hup] at h
        cases h
      · rw [if_neg hup] at h
        by_cases hcr : creds.username ≠ u ∨ creds.password ≠ p
        · rw [if_pos hcr] at h
          cases h
        · rw [if_neg hcr] at h
          push_neg at hup hcr
          obtain ⟨hu, hp⟩ := hup
          obtain ⟨hcu, hcp⟩ := hcr
          refine ⟨u, p, rfl, rfl, hu, hp, hcu, hcp, ?_, ?_⟩
          · have := congrArg Prod.fst h
            simp at this
            rw [← this, hcu]
          · have := congrArg Prod.snd h
            simp at this
            rw [← this, hcu]

/-- Invariant of the class-05 token store: every stored username is
non-empty (the configuration check plus the exact-match check make login
store only the configured, non-empty username). -/
theorem reachable_values_ne_empty {cfgU cfgP : Option String} {store : Store}
    (h : Class05.Reachable cfgU cfgP store) :
    ∀ e ∈ store, e.2 ≠ "" := by
  unfold Class05.Reachable at h
  induction h with
  | refl => intro e he; cases he
  | tail h' step ih =>
    intro e he
    obtain ⟨creds, uuid, resp, st2, hlogin⟩ := step
    obtain ⟨u, p, hcu, hcp, hu, hp, hun, hpw, hresp, hst⟩ := login_ok_elim hlogin
    subst hst
    unfold Store.put at he
    rcases List.mem_cons.mp he with he1 | he2
    · rw [he1]; exact hu
    · exact ih e (List.mem_filter.mp he2).1

/-- A login step never removes a binding to the configured username: the
only key it writes is bound to that same username. -/
theorem store_get_preserved {cfgU cfgP : Option String} {u : String}
    (hcu : cfgU = some u) {s s' : Store}
    (h : Relation.ReflTransGen (Class05.LoginStep cfgU cfgP) s s')
    {t : String} (hget : Store.get s t = some u) : Store.get s' t = some u := by
  induction h with
  | refl => exact hget
  | tail h' step ih =>
    obtain ⟨creds, uuid, resp, st2, hlogin⟩ := step
    obtain ⟨u', p', hcu', hcp', hu', hp', hun, hpw, hresp, hst⟩ := login_ok_elim hlogin
    have huu : u' = u := by
      rw [hcu] at hcu'
      exact (Option.some_injective _ hcu').symm
    subst huu
    subst hst
    by_cases htk : t = Class05.create_token uuid u'
    · rw [htk]
      exact store_get_put_self _ _ _
    · rw [store_get_put_ne _ _ _ _ htk]
      exact ih

/-- A string with a non-empty left part is non-empty. -/
theorem append_left_ne_empty (s t : String) (h : s ≠ "") : s ++ t ≠ "" := by
  intro he
  apply h
  have hd := congrArg String.data he
  rw [String.data_append] at hd
  exact String.ext (List.append_eq_nil.mp hd).1

/-- With the agent executor present, the prompt guard passing, and the
invocation producing nothing, the class-06 `run_agent` returns `None` for
every conversation. -/
theorem run_agent_invoke_none (rg rf : Bool) (ro : Class06.GVal)
    (msgs : List Class06.ChatMessage) :
    Class06.run_agent true false none rg rf ro msgs = none := by
  cases h : msgs.isEmpty <;> simp [Class06.run_agent, h]

/- ### Claim theorems -/

/-- C4 (amended): in the token-store-based class-05 service, on any token
store reachable from process start by login requests, a token absent from
the store is rejected with the 401 `invalidToken` error, and a token is
accepted (with its stored username) precisely when it is a key of the store. -/
theorem auth_guard_accepts_iff_in_store (cfgU cfgP : Option String)
    (store : Store) (t : String) (hr : Class05.Reachable cfgU cfgP store) :
    (Store.get store t = none →
      Class05.verify_token store t = .error Class05.invalidToken) ∧
    ((∃ u, Class05.verify_token store t = .ok u) ↔ (Store.get store t).isSome = true) ∧
    (∀ u, Store.get store t = some u → Class05.verify_token store t = .ok u) := by
  have hvals := reachable_values_ne_empty hr
  refine ⟨?_, ?_, ?_⟩
  · intro h
    unfold Class05.verify_token
    rw [h]
  · constructor
    · rintro ⟨u, hu⟩
      unfold Class05.verify_token at hu
      cases hg : Store.get store t with
      | none => rw [hg] at hu; cases hu
      | some v => simp [hg]
    · intro h
      cases hg : Store.get store t with
      | none => rw [hg] at h; cases h
      | some v =>
        obtain ⟨e, he, hev⟩ := store_get_eq_some_mem hg
        have hv : v ≠ "" := hev ▸ hvals e he
        refine ⟨v, ?_⟩
        unfold Class05.verify_token
        rw [hg]
        dsimp only
        rw [if_neg hv]
  · intro u hu
    obtain ⟨e, he, hev⟩ := store_get_eq_some_mem hu
    have hv : u ≠ "" := hev ▸ hvals e he
    unfold Class05.verify_token
    rw [hu]
    dsimp only
    rw [if_neg hv]

/-- Witness for C4's amended theorem, on the store produced by one
successful login: the never-issued token `token-zzz` is rejected with 401,
and the issued token is accepted. -/
theorem auth_guard_accepts_iff_in_store_witness :
    Class05.verify_token [("token-u1-student", "student")] "token-zzz" =
      .error Class05.invalidToken ∧
    Class05.verify_token [("token-u1-student", "student")] "token-u1-student" =
      .ok "student" := by
  have hreach : Class05.Reachable (some "student") (some "travel-demo")
      [("token-u1-student", "student")] :=
    Relation.ReflTransGen.single
      (Class05.LoginStep.step [] { username := "student", password := "travel-demo" }
        "u1" { message := "Welcome back, student!", token := "token-u1-student" }
        [("token-u1-student", "student")] rfl)
  have h1 := auth_guard_accepts_iff_in_store (some "student") (some "travel-demo")
    [("token-u1-student", "student")] "token-zzz" hreach
  have h2 := auth_guard_accepts_iff_in_store (some "student") (some "travel-demo")
    [("token-u1-student", "student")] "token-u1-student" hreach
  exact ⟨h1.1 rfl, h2.2.2 "student" rfl⟩

/-- C4 (counterexample to the claim as stated): the beginner auth resource's
guard accepts the well-formed token `token-bod_doe` although the process
tracks no issued tokens at all (the guard reads only the static user table —
its Lean embedding does not even take a token store), so a never-issued
token is not rejected with 401. -/
theorem resources_guard_accepts_unissued_token :
    ResourcesAuth.read_profile "token-bod_doe" =
      .ok { username := "bod_doe", full_name := "Bod Doe" } := rfl

/-- C5: a token issued by a successful class-05 login is accepted by the
auth guard in any later request of the same process lifetime (that is, after
any further sequence of login requests — no other request writes the store),
and the guard yields the username that logged in. -/
theorem login_token_roundtrip (cfgU cfgP : Option String)
    (store store₁ store₂ : Store) (creds : Class05.Credentials) (uuid : String)
    (resp : Class05.LoginResponse)
    (h : Class05.login cfgU cfgP store creds uuid = (.ok resp, store₁))
    (h2 : Relation.ReflTransGen (Class05.LoginStep cfgU cfgP) store₁ store₂) :
    Class05.verify_token store₂ resp.token = .ok creds.username := by
  obtain ⟨u, p, hcu, hcp, hu, hp, hun, hpw, hresp, hst⟩ := login_ok_elim h
  have htok : resp.token = Class05.create_token uuid u := by rw [hresp]
  have hget1 : Store.get store₁ resp.token = some u := by
    rw [hst, htok]
    exact store_get_put_self _ _ _
  have hget2 : Store.get store₂ resp.token = some u :=
    store_get_preserved hcu h2 hget1
  unfold Class05.verify_token
  rw [hget2]
  dsimp only
  rw [if_neg hu, hun]

/-- Witness for C5: a concrete login round-trip, checked after one further
login request has run. -/
theorem login_token_roundtrip_witness :
    Class05.verify_token
      [("token-u2-student", "student"), ("token-u1-student", "student")]
      "token-u1-student" = .ok "student" :=
  login_token_roundtrip (some "student") (some "travel-demo") []
    [("token-u1-student", "student")]
    [("token-u2-student", "student"), ("token-u1-student", "student")]
    { username := "student", password := "travel-demo" } "u1"
    { message := "Welcome back, student!", token := "token-u1-student" }
    rfl
    (Relation.ReflTransGen.single
      (Class05.LoginStep.step [("token-u1-student", "student")]
        { username := "student", password := "travel-demo" } "u2"
        { message := "Welcome back, student!", token := "token-u2-student" }
        [("token-u2-student", "student"), ("token-u1-student", "student")] rfl))

/-- C6: an authenticated chat request whose message strips to empty fails
with the 400 `emptyMessage` error, with no external call (no Langfuse
auth-check contact, no agent invocation). -/
theorem empty_message_bad_request_no_calls (store : Store) (token : String)
    (p : Class05.ChatRequest) (m : Bool) (ar : Option String) (u : String)
    (hauth : Class05.verify_token store token = .ok u)
    (hmsg : pyStrip p.message = "") :
    Class05.chat store token p m ar =
      { result := .error Class05.emptyMessage, calls := [] } := by
  unfold Class05.chat
  rw [hauth]
  unfold Class05.chatBody
  rw [if_pos hmsg]

/-- Witness for C6: whitespace-only message with a valid token. -/
theorem empty_message_bad_request_no_calls_witness :
    Class05.chat [("t", "student")] "t"
      { message := "   ", session_id := none } false none =
      { result := .error Class05.emptyMessage, calls := [] } :=
  empty_message_bad_request_no_calls [("t", "student")] "t"
    { message := "   ", session_id := none } false none "student" rfl rfl

/-- C7: any credential pair differing from the configured pair (exact,
case-sensitive equality on both fields) is rejected with the 401
`invalidCredentials` error, and the token store is unchanged — in the
class-05 service (whose configured pair is non-empty past the configuration
check) and in the class-07 service (unconditionally). -/
theorem wrong_credentials_unauthorized (cfgU cfgP : String) (store : Store)
    (creds : Class05.Credentials) (uuid : String)
    (hdiff : creds.username ≠ cfgU ∨ creds.password ≠ cfgP) :
    (cfgU ≠ "" → cfgP ≠ "" →
      Class05.login (some cfgU) (some cfgP) store creds uuid =
        (.error Class05.invalidCredentials, store)) ∧
    Class07.login cfgU cfgP store creds uuid =
      (.error Class05.invalidCredentials, store) := by
  constructor
  · intro hU hP
    unfold Class05.login
    dsimp only
    rw [if_neg (by push_neg; exact ⟨hU, hP⟩), if_pos hdiff]
  · unfold Class07.login
    rw [if_pos hdiff]

/-- Witness for C7: correct username, wrong password, against the default
configured pair. -/
theorem wrong_credentials_unauthorized_witness :
    Class05.login (some "student") (some "travel-demo") []
      { username := "student", password := "wrong" } "u2" =
      (.error Class05.invalidCredentials, ([] : Store)) ∧
    Class07.login "student" "travel-demo" []
      { username := "student", password := "wrong" } "u2" =
      (.error Class05.invalidCredentials, ([] : Store)) := by
  have h := wrong_credentials_unauthorized "student" "travel-demo" []
    { username := "student", password := "wrong" } "u2"
    (Or.inr (by decide))
  exact ⟨h.1 (by decide) (by decide), h.2⟩

/-- C10: a chat request whose token is not a key of the token store is
answered 401 before anything else happens — for every body, including one
whose message is empty or whitespace-only — and no external call is made
(the handler never writes the store, so no state changes either). -/
theorem unauthorized_before_validation (store : Store) (token : String)
    (p : Class05.ChatRequest) (m : Bool) (ar : Option String)
    (h : Store.get store token = none) :
    Class05.chat store token p m ar =
      { result := .error Class05.invalidToken, calls := [] } := by
  unfold Class05.chat Class05.verify_token
  rw [h]

/-- Witness for C10: a well-formed but never-issued token together with a
whitespace-only message still yields 401, not 400. -/
theorem unauthorized_before_validation_witness :
    Class05.chat [] "token-123-student"
      { message := "   ", session_id := none } false none =
      { result := .error Class05.invalidToken, calls := [] } :=
  unauthorized_before_validation [] "token-123-student"
    { message := "   ", session_id := none } false none rfl

/-- C9: the class-05 fallback reply is exactly the spec's keyword table read
in order on the lowercased message (streamlit, fastapi, langfuse/monitor,
deploy), with the fixed offline-mode reply when no keyword occurs; being a
function of the message alone, it is deterministic across turns. -/
theorem build_offline_reply_matches_spec (m : String) :
    Class05.build_offline_reply m = offlineReplySpec m := by
  unfold Class05.build_offline_reply offlineReplySpec fallbackRules
  dsimp only
  cases h1 : strIn "streamlit" (pyLower m) <;>
    cases h2 : strIn "fastapi" (pyLower m) <;>
      cases h3 : strIn "langfuse" (pyLower m) <;>
        cases h4 : strIn "monitor" (pyLower m) <;>
          cases h5 : strIn "deploy" (pyLower m) <;>
            simp [List.find?, h1, h2, h3, h4, h5]

/-- C1 (amended): when the agent collaborator fails or returns no content,
the class-05 chat handler (given a valid token, a non-blank message and a
client session id) answers 2xx with the fallback source tag "rule-based";
the class-06 guardrails handler, which has no fallback reply, instead lets a
`TypeError` escape `compute_reply` (because it unpacks `run_agent`'s `None`
return), surfacing an error to the caller. -/
theorem fallback_on_agent_failure :
    (∀ (store : Store) (token : String) (p : Class05.ChatRequest) (m : Bool)
        (ar : Option String) (u sid : String),
      Class05.verify_token store token = .ok u →
      pyStrip p.message ≠ "" →
      p.session_id = some sid →
      optTruthy ar = false →
      Class05.chat store token p m ar =
        { result := .ok { reply := Class05.build_offline_reply (pyStrip p.message),
                          source := "rule-based", monitored := m, session_id := sid },
          calls := [.langfuseAuthCheck, .agentInvoke] }) ∧
    (∀ (p : Class06.ChatRequest) (uuid : String) (rg rf : Bool) (ro : Class06.GVal),
      Class06.buildConversation p ≠ [] →
      Class06.lastUserMessage (Class06.buildConversation p) ≠ none →
      Class06.chat p uuid true false none rg rf ro = .exc Class06.typeErrorMsg) := by
  constructor
  · intro store token p m ar u sid hauth hmsg hsid har
    unfold Class05.chat
    rw [hauth]
    unfold Class05.chatBody
    rw [if_neg hmsg, hsid]
    unfold Class05.invoke_agent
    rw [if_neg (by rw [har]; exact Bool.false_ne_true)]
  · intro p uuid rg rf ro hconv huser
    unfold Class06.chat
    dsimp only
    rw [if_neg hconv, if_neg huser]
    unfold Class06.compute_reply
    rw [run_agent_invoke_none]

/-- Witness for C1's amended theorem: both conjuncts applied at concrete
requests (class-05: agent unavailable; class-06: agent invocation failed). -/
theorem fallback_on_agent_failure_witness :
    Class05.chat [("t", "student")] "t"
      { message := "hello", session_id := some "s1" } false none =
      { result := .ok { reply := Class05.build_offline_reply (pyStrip "hello"),
                        source := "rule-based", monitored := false, session_id := "s1" },
        calls := [.langfuseAuthCheck, .agentInvoke] } ∧
    Class06.chat { session_id := some "s6",
                   messages := [{ role := "user", content := "hi" }],
                   message := none } "g2" true false none false false
        (.outcome true "") = .exc Class06.typeErrorMsg := by
  constructor
  · exact fallback_on_agent_failure.1 [("t", "student")] "t"
      { message := "hello", session_id := some "s1" } false none "student" "s1"
      rfl (by decide) rfl rfl
  · exact fallback_on_agent_failure.2
      { session_id := some "s6", messages := [{ role := "user", content := "hi" }],
        message := none } "g2" false false (.outcome true "")
      (by decide) (by decide)

/-- C1 (counterexample to the claim as stated): a request to the class-06
chat handler with a valid user message, the agent present, the prompt guard
passing, and the agent invocation failing does not produce a success
response — the handler raises (an unhandled `TypeError`), surfacing an error
to the caller. -/
theorem agent_failure_error_counterexample :
    Class06.chat { session_id := some "s6",
                   messages := [{ role := "user", content := "hello" }],
                   message := none } "g3" true false none false false
      (.outcome true "") = .exc Class06.typeErrorMsg := rfl

/-- C2 (amended): what a guardrail rejection actually does.  In the class-07
plan handler, a rejected user prompt fails the request with a 400 error
(detail from the guard), while a rejected agent reply substitutes the
fallback itinerary, tags the source "fallback" (not "blocked"), sets the
guardrails note, and returns success.  Only the class-06 chat handler
substitutes a fixed apology string on a prompt-guard rejection and returns
it with success status (tagged via `guardrails_applied`; it has no source
field). -/
theorem guardrail_rejection_behavior :
    (∀ (store : Store) (token u : String) (p : Class07.PlanRequest)
        (uuid exc : String) (m : Bool) (ai ag : Option String),
      Class05.verify_token store token = .ok u →
      Class07.plan_trip store token p uuid (some exc) m ai ag =
        .error { status := 400, detail := "Prompt rejected by guardrails: " ++ exc }) ∧
    (∀ (store : Store) (token u : String) (p : Class07.PlanRequest)
        (uuid : String) (m : Bool) (itin exc2 : String),
      Class05.verify_token store token = .ok u →
      itin ≠ "" →
      Class07.plan_trip store token p uuid none m (some itin) (some exc2) =
        .ok { itinerary := Class07.build_fallback_reply p,
              session_id := pyOr p.session_id uuid, monitored := m,
              source := "fallback",
              guardrails_note := some ("Response withheld by guardrails: " ++ exc2) }) ∧
    (∀ (p : Class06.ChatRequest) (uuid : String) (ir : Option String)
        (rg rf : Bool) (ro : Class06.GVal),
      Class06.buildConversation p ≠ [] →
      Class06.lastUserMessage (Class06.buildConversation p) ≠ none →
      Class06.chat p uuid true true ir rg rf ro =
        .ok (.ok { reply := Class06.apologyPrompt,
                   session_id := pyOr p.session_id uuid,
                   guardrails_applied := some "GUARDRAILS ERROR" })) := by
  refine ⟨?_, ?_, ?_⟩
  · intro store token u p uuid exc m ai ag hauth
    unfold Class07.plan_trip
    rw [hauth]
    dsimp only
    unfold Class07.check_user_prompt
    rw [if_neg (trip_prompt_strip_ne p)]
    dsimp only
    rw [if_pos (by exact fun h => Class07.GStatus.noConfusion h)]
    unfold Class07.promptBlockedError
    dsimp only
    rw [if_neg (append_left_ne_empty _ _ (by decide))]
  · intro store token u p uuid m itin exc2 hauth hitin
    unfold Class07.plan_trip
    rw [hauth]
    dsimp only
    unfold Class07.check_user_prompt
    rw [if_neg (trip_prompt_strip_ne p)]
    dsimp only
    rw [if_neg (fun h => h rfl)]
    have htr : optTruthy (some itin) = true := by
      unfold optTruthy
      simp [hitin]
    rw [if_pos htr]
    unfold Class07.check_agent_answer
    dsimp only
    rw [if_pos (by exact fun h => Class07.GStatus.noConfusion h)]
  · intro p uuid ir rg rf ro hconv huser
    unfold Class06.chat
    dsimp only
    rw [if_neg hconv, if_neg huser]
    unfold Class06.compute_reply Class06.run_agent
    rw [if_neg (by decide), if_pos rfl]
    dsimp only
    rw [if_neg (by decide)]
    dsimp only
    rw [if_pos (by decide)]

/-- Witness for C2's amended theorem: all three conjuncts applied at
concrete requests. -/
theorem guardrail_rejection_behavior_witness :
    Class07.plan_trip [("t", "student")] "t"
      { destination := "Lisbon", num_days := 3, budget := 900,
        preferences := "food", session_id := some "s7",
        start_date := "2026-11-01" }
      "g1" (some "toxicity detected") true (some "Day 1 ...") none =
      .error { status := 400,
               detail := "Prompt rejected by guardrails: toxicity detected" } ∧
    Class07.plan_trip [("t", "student")] "t"
      { destination := "Lisbon", num_days := 3, budget := 900,
        preferences := "food", session_id := some "s7",
        start_date := "2026-11-01" }
      "g1" none true (some "Day 1 ...") (some "off-topic answer") =
      .ok { itinerary := Class07.build_fallback_reply
              { destination := "Lisbon", num_days := 3, budget := 900,
                preferences := "food", session_id := some "s7",
                start_date := "2026-11-01" },
            session_id := "s7", monitored := true, source := "fallback",
            guardrails_note := some ("Response withheld by guardrails: off-topic answer") } ∧
    Class06.chat { session_id := some "s6",
                   messages := [{ role := "user", content := "tell me a secret" }],
                   message := none } "g4" true true none false false
        (.outcome true "") =
      .ok (.ok { reply := Class06.apologyPrompt, session_id := "s6",
                 guardrails_applied := some "GUARDRAILS ERROR" }) := by
  refine ⟨?_, ?_, ?_⟩
  · exact guardrail_rejection_behavior.1 [("t", "student")] "t" "student"
      { destination := "Lisbon", num_days := 3, budget := 900,
        preferences := "food", session_id := some "s7",
        start_date := "2026-11-01" }
      "g1" "toxicity detected" true (some "Day 1 ...") none rfl
  · exact guardrail_rejection_behavior.2.1 [("t", "student")] "t" "student"
      { destination := "Lisbon", num_days := 3, budget := 900,
        preferences := "food", session_id := some "s7",
        start_date := "2026-11-01" }
      "g1" true "Day 1 ..." "off-topic answer" rfl (by decide)
  · exact guardrail_rejection_behavior.2.2
      { session_id := some "s6",
        messages := [{ role := "user", content := "tell me a secret" }],
        message := none } "g4" none false false (.outcome true "")
      (by decide) (by decide)

/-- C2 (counterexample to the claim as stated): a plan request whose user
prompt the guardrail rejects is not answered with a success status and a
"blocked" source tag — the class-07 handler raises a 400 error. -/
theorem guardrail_block_returns_400_counterexample :
    Class07.plan_trip [("t", "student")] "t"
      { destination := "Paris", num_days := 2, budget := 500,
        preferences := "museums", session_id := some "s8",
        start_date := "2026-12-01" }
      "g5" (some "sensitive topic") false none none =
      .error { status := 400,
               detail := "Prompt rejected by guardrails: sensitive topic" } := rfl

/-- C3 (code evaluation at the failing input): a chat request with a valid
token, the valid body `{"message": "hello"}` and no session id does not get
a 200 with a generated session id — the class-05 handler passes `None`
through to the required-string `session_id` response field and the request
fails with a 500, even though the agent produced a reply. -/
theorem missing_session_id_yields_500 :
    Class05.chat [("token-1-student", "student")] "token-1-student"
      { message := "hello", session_id := none } true (some "Hello there!") =
      { result := .error Class05.responseValidationError,
        calls := [.langfuseAuthCheck, .agentInvoke] } := rfl

/-- C8 (amended): only the class-05 service checks its configuration —
absent or empty configured credentials make its login fail with the 500
`serverMisconfigured` error for every submitted credential pair, leaving the
store unchanged.  The class-07 service has no such check: its only login
error is the 401 `invalidCredentials`. -/
theorem login_misconfiguration_behavior (cfgU cfgP : Option String)
    (store : Store) (creds : Class05.Credentials) (uuid : String)
    (h : optTruthy cfgU = false ∨ optTruthy cfgP = false) :
    Class05.login cfgU cfgP store creds uuid =
      (.error Class05.serverMisconfigured, store) ∧
    (∀ (cu cp : String) (e : HTTPError),
      (Class07.login cu cp store creds uuid).1 = .error e →
      e = Class05.invalidCredentials) := by
  constructor
  · cases cfgU with
    | none => rfl
    | some u =>
      cases cfgP with
      | none => rfl
      | some q =>
        have h2 : u = "" ∨ q = "" := by
          rcases h with h | h <;> [left; right] <;>
            simpa [optTruthy] using h
        unfold Class05.login
        dsimp only
        rw [if_pos h2]
  · intro cu cp e he
    unfold Class07.login at he
    by_cases hd : creds.username ≠ cu ∨ creds.password ≠ cp
    · rw [if_pos hd] at he
      dsimp only at he
      injection he with he2
      exact he2.symm
    · rw [if_neg hd] at he
      dsimp only at he
      cases he

/-- Witness for C8's amended theorem: missing configured username. -/
theorem login_misconfiguration_behavior_witness :
    Class05.login none (some "travel-demo") []
      { username := "student", password := "wrong" } "u9" =
      (.error Class05.serverMisconfigured, ([] : Store)) ∧
    Class05.invalidCredentials = Class05.invalidCredentials := by
  constructor
  · exact (login_misconfiguration_behavior none (some "travel-demo") []
      { username := "student", password := "wrong" } "u9" (Or.inl rfl)).1
  · exact (login_misconfiguration_behavior none (some "travel-demo") []
      { username := "student", password := "wrong" } "u9" (Or.inl rfl)).2
      "student" "travel-demo" Class05.invalidCredentials rfl

/-- C8 (counterexample to the claim as stated): with the class-07 service's
configured credentials set to empty strings (empty environment variables,
which `os.getenv`'s defaults do not replace), a login with matching empty
credentials succeeds and stores a token — it does not fail with a
ServerMisconfigured error. -/
theorem class07_empty_config_login_succeeds :
    Class07.login (Class07.envOr (some "") "student")
      (Class07.envOr (some "") "travel-demo") []
      { username := "", password := "" } "uuid-1" =
      (.ok { message := "Welcome back, !", token := "token-uuid-1-" },
        [("token-uuid-1-", "")]) := rfl

end AgentDemos
